import Mathlib

/-!
Verification of the version-metadata extraction engine of
`py_versione_oggetti.py` (repository `Versione_oggetti`).

The Python program reads Windows PE version resources through two
backends (the native `version.dll` API via ctypes, then a `win32api`
fallback), resolves a package label through an ordered fallback chain
of string fields and locale variants, decodes a fixed 4-part version
number, and applies this extraction per file inside a bounded pool.

Shallow embedding conventions:
* The Windows API surface observed by the program is modelled as
  explicit oracle data carried by `Block` (native backend) and
  `Win32Api` (pywin32 backend).  A query that raises an exception or
  returns FALSE is a `none` / `qfail` value; the Python
  `try ... except` blocks around those calls become `Option` matches.
* `VerQueryValueW("\\VarFileInfo\\Translation")` yields a pointer into
  the version buffer plus a reported byte length; the bytes reachable
  from that pointer are modelled as a total function `mem : Nat → Nat`
  (reads past the reported length stay inside the enclosing buffer and
  therefore succeed, exactly as `ctypes.string_at` does).
* Machine words are `Nat` with the masks (`&&& 0xFFFF`, `>>> 16`)
  written exactly as in the source.
* `os.stat` together with `datetime.fromtimestamp`/`strftime` is
  modelled as one `Option StatInfo`: `none` when that prefix of
  `process_file` raises, `some` with the already-rendered timestamp
  otherwise.
* `str.strip()` is `pyStrip`, stripping the ASCII whitespace set that
  Python strips; Python truthiness of a string is equality with `""`.
-/

/-- Result of one `VerQueryValueW(buffer, "\\StringFileInfo\\<t>\\<k>")`
probe as observed by `get_string_from_version_info`: the call may fail
or raise (`qfail`), succeed with length 0 (`qlen0`), succeed and let
`ctypes.wstring_at` return a string (`qval`), or succeed while
`wstring_at` raises (`qreadErr`). -/
inductive StrQuery where
  | qfail
  | qlen0
  | qval (v : String)
  | qreadErr
deriving DecidableEq

/-- Raw view of the `\VarFileInfo\Translation` entry: `mem i` is the
byte at offset `i` from the returned pointer (total, since the pointer
lands inside the version buffer), `length` the reported byte length. -/
structure TransEntry where
  mem : Nat → Nat
  length : Nat

/-- Raw view of the root `"\\"` fixed-info query: reported byte length
and the two packed 32-bit version fields of `VS_FIXEDFILEINFO`. -/
structure RootEntry where
  length : Nat
  versionMS : Nat
  versionLS : Nat

/-- One loaded version-info buffer for a file, as observable through
the three kinds of `VerQueryValueW` probes the program performs.
`transQuery`/`rootQuery` are `none` when the query fails or raises. -/
structure Block where
  transQuery : Option TransEntry
  rootQuery : Option RootEntry
  stringQuery : String → String → StrQuery

/-- The pywin32 backend: `available` is whether `import win32api`
succeeds; `getFixedVersion` models `GetFileVersionInfo(path, "\\")`
(the `FileVersionMS`/`FileVersionLS` pair, `none` = raised);
`getString cp key` models `GetFileVersionInfo(path,
"\\StringFileInfo\\<cp>\\<key>")` (`none` = raised). -/
structure Win32Api where
  available : Bool
  getFixedVersion : Option (Nat × Nat)
  getString : String → String → Option String

/-- Successful `os.stat` + timestamp rendering for one file: the
`strftime`-formatted mtime and the size in bytes. -/
structure StatInfo where
  mtimeFormatted : String
  size : Nat
deriving DecidableEq

/-- The output row assembled by `process_file` (Python dict keys
`PercorsoCompleto`, `Package`, `DataOra`, `Dimensione`). -/
structure FileRecord where
  PercorsoCompleto : String
  Package : String
  DataOra : String
  Dimensione : Nat
deriving DecidableEq

/-- Python's whitespace set for `str.strip()` restricted to ASCII
(space, tab, newline, carriage return, vertical tab, form feed). -/
def pyWs (c : Char) : Bool :=
  c = ' ' || c = '\t' || c = '\n' || c = '\r' || c = '\x0b' || c = '\x0c'

/-- Model of Python `str.strip()`: drop leading and trailing
whitespace characters. -/
def pyStrip (s : String) : String :=
  String.mk (((s.data.dropWhile pyWs).reverse.dropWhile pyWs).reverse)

/-- Index of the last `'.'` in a character list, if any. -/
def lastDotIndex : List Char → Option Nat
  | [] => none
  | c :: rest =>
    match lastDotIndex rest with
    | some i => some (i + 1)
    | none => if c = '.' then some 0 else none

/-- Model of `os.path.splitext(s)[0]` for a plain file name (no
directory separators, which is how the source applies it: to
`os.path.basename(file_path)` and to the `OriginalFilename` resource
string): cut at the last dot unless every character before it is a
dot. -/
def splitextRoot (s : String) : String :=
  match lastDotIndex s.data with
  | none => s
  | some d =>
    if (s.data.take d).any (fun c => c ≠ '.') then String.mk (s.data.take d) else s

/-- Uppercase hexadecimal digit character, as produced by Python's
`"{:04X}"` format. -/
def hexDigit (n : Nat) : Char :=
  if n < 10 then Char.ofNat (48 + n) else Char.ofNat (55 + n)

/-- Model of Python `f"{n:04X}"` for `n < 0x10000`: four uppercase hex
digits, zero padded. -/
def hex4 (n : Nat) : String :=
  String.mk [hexDigit (n / 4096 % 16), hexDigit (n / 256 % 16),
    hexDigit (n / 16 % 16), hexDigit (n % 16)]

/-- Numeric value of one of the characters produced by `hexDigit`
(specification-side inverse used to state round-trip correctness). -/
def hexCharVal (c : Char) : Nat :=
  if c.toNat < 58 then c.toNat - 48 else c.toNat - 55

/-- Base-16 value of a string of hex digits (specification-side). -/
def hexStrVal (s : String) : Nat :=
  s.data.foldl (fun a c => 16 * a + hexCharVal c) 0

/-- Static fallback variant list of `get_all_available_translations`
(source lines 175-185), used when no translations were decoded. -/
def staticTranslations : List String :=
  ["040904B0", "040904E4", "041004B0", "041004E4", "040704B0",
   "040C04B0", "080904B0", "000004B0", "000004E4"]

/-- The decode loop of `get_all_available_translations` (source lines
163-169): `for i in range(0, length, 4)` reads a little-endian uint16
language id at offset `i` and a little-endian uint16 codepage id at
`i + 2` and renders `f"{lang:04X}{cp:04X}"`.  `range(0, L, 4)` has
`(L + 3) / 4` elements. -/
def decodeTranslations (e : TransEntry) : List String :=
  (List.range ((e.length + 3) / 4)).map (fun j =>
    hex4 (e.mem (4 * j) + 256 * e.mem (4 * j + 1)) ++
    hex4 (e.mem (4 * j + 2) + 256 * e.mem (4 * j + 3)))

/-- Model of `get_all_available_translations` (source lines 151-187):
query `\VarFileInfo\Translation`; when the query succeeds and the
reported length is at least 4, decode 4-byte groups; if the resulting
list is empty (query failed, entry absent, or length below 4),
substitute `staticTranslations`. -/
def get_all_available_translations (b : Block) : List String :=
  let translations :=
    match b.transQuery with
    | none => []
    | some e => if 4 ≤ e.length then decodeTranslations e else []
  if translations.isEmpty then staticTranslations else translations

/-- Model of `get_string_from_version_info` (source lines 189-210):
probe `\StringFileInfo\<translation>\<key>` for each translation in
order; on a successful read with a non-empty stripped value return the
stripped value; on failure, zero length, a read error, or an
empty/whitespace value continue with the next translation; return `""`
when the list is exhausted. -/
def get_string_from_version_info (b : Block) (key : String) :
    List String → String
  | [] => ""
  | t :: rest =>
    match b.stringQuery t key with
    | .qval v =>
      if pyStrip v ≠ "" then pyStrip v
      else get_string_from_version_info b key rest
    | _ => get_string_from_version_info b key rest

/-- Model of `get_version_info_local` (source lines 212-247): `none`
when the native API is unavailable or the buffer cannot be loaded;
otherwise resolve `key` over all available translations and return the
value only when it is non-empty (the Python function returns a dict
only under `if value:`). -/
def get_version_info_local (apiAvailable : Bool) (bo : Option Block)
    (key : String) : Option String :=
  if apiAvailable then
    match bo with
    | none => none
    | some b =>
      let translations := get_all_available_translations b
      let value := get_string_from_version_info b key translations
      if value ≠ "" then some value else none
  else none

/-- Size in bytes of `VS_FIXEDFILEINFO`: 13 DWORD fields of 4 bytes. -/
def sizeofVSFixedFileInfo : Nat := 52

/-- Dotted version rendering shared by both backends (source lines
280-285 and 317-319): high word of MS, low word of MS, high word of
LS, low word of LS, joined with dots. -/
def renderVersion (ms ls : Nat) : String :=
  toString ((ms >>> 16) &&& 0xFFFF) ++ "." ++ toString (ms &&& 0xFFFF) ++ "." ++
  toString ((ls >>> 16) &&& 0xFFFF) ++ "." ++ toString (ls &&& 0xFFFF)

/-- The native `file_version` computation of `get_file_version_info`
(source lines 272-287): query `"\\"`, validate the reported length
against `sizeof(VS_FIXEDFILEINFO)`, decode; otherwise leave `""`. -/
def nativeFileVersion (b : Block) : String :=
  match b.rootQuery with
  | none => ""
  | some e =>
    if sizeofVSFixedFileInfo ≤ e.length then
      renderVersion e.versionMS e.versionLS
    else ""

/-- The native `product_name` chain of `get_file_version_info` (source
lines 289-306): ProductName, then if empty FileDescription, then
InternalName, then OriginalFilename with its extension stripped. -/
def nativeProductName (b : Block) : String :=
  let translations := get_all_available_translations b
  let pn := get_string_from_version_info b "ProductName" translations
  let pn := if pn = "" then
    get_string_from_version_info b "FileDescription" translations else pn
  let pn := if pn = "" then
    get_string_from_version_info b "InternalName" translations else pn
  if pn = "" then
    let original_name := get_string_from_version_info b "OriginalFilename" translations
    if original_name ≠ "" then splitextRoot original_name else ""
  else pn

/-- Fixed codepage list of the pywin32 fallback (source line 325). -/
def codepages : List String :=
  ["040904B0", "040904E4", "041004B0", "041004E4", "000004B0",
   "040704B0", "040C04B0"]

/-- One probing loop of the pywin32 fallback (source lines 327-334 and
the two analogous loops): walk the codepage list; a call that raises
leaves the accumulator unchanged; a call that returns a value with a
non-empty strip is returned stripped (`break`); a call that returns an
empty or whitespace value overwrites the accumulator and continues. -/
def w32Probe (g : String → String → Option String) (key : String) :
    List String → String → String
  | [], acc => acc
  | cp :: rest, acc =>
    match g cp key with
    | none => w32Probe g key rest acc
    | some v =>
      if pyStrip v ≠ "" then pyStrip v else w32Probe g key rest v

/-- The pywin32 `product_name` chain (source lines 324-356):
ProductName over `codepages`, then — only when the result is the empty
string — FileDescription, then InternalName.  There is no
OriginalFilename step in this backend. -/
def w32ProductName (g : String → String → Option String) : String :=
  let pn := w32Probe g "ProductName" codepages ""
  let pn := if pn = "" then w32Probe g "FileDescription" codepages "" else pn
  if pn = "" then w32Probe g "InternalName" codepages "" else pn

/-- Model of `get_file_version_info` (source lines 249-372): native
backend first (when `ctypes.windll.version` loaded and the buffer
loads), then the pywin32 backend when the label or version is still
empty, then the terminal defaults: the file's own base name with its
extension stripped, and `"0.0.0.0"`.  `fileBaseName` is
`os.path.basename(file_path)`. -/
def get_file_version_info (apiAvailable : Bool) (bo : Option Block)
    (w32 : Win32Api) (fileBaseName : String) : String × String :=
  let pnfv :=
    if apiAvailable then
      match bo with
      | some b => (nativeProductName b, nativeFileVersion b)
      | none => ("", "")
    else ("", "")
  let pnfv :=
    if pnfv.1 = "" ∨ pnfv.2 = "" then
      if w32.available then
        let fv :=
          if pnfv.2 = "" then
            match w32.getFixedVersion with
            | some p => renderVersion p.1 p.2
            | none => pnfv.2
          else pnfv.2
        let pn := if pnfv.1 = "" then w32ProductName w32.getString else pnfv.1
        (pn, fv)
      else pnfv
    else pnfv
  let pn := if pnfv.1 = "" then splitextRoot fileBaseName else pnfv.1
  let fv := if pnfv.2 = "" then "0.0.0.0" else pnfv.2
  (pn, fv)

/-- Model of `process_file` (source lines 374-408): when the stat /
timestamp prefix raises, the surrounding `try` swallows it and the
task yields `None`; otherwise resolve the caller-supplied key through
`get_version_info_local` and either use its value standalone or
compose `"{product_name} - {file_version}"` from
`get_file_version_info`.  Both helpers read the same file, so they see
the same `bo` and `w32` oracles. -/
def process_file (stat : Option StatInfo) (apiAvailable : Bool)
    (bo : Option Block) (w32 : Win32Api)
    (path fileBaseName key : String) : Option FileRecord :=
  match stat with
  | none => none
  | some st =>
    let value_info := get_version_info_local apiAvailable bo key
    let package_value :=
      match value_info with
      | some v => v
      | none =>
        let pnfv := get_file_version_info apiAvailable bo w32 fileBaseName
        pnfv.1 ++ " - " ++ pnfv.2
    some { PercorsoCompleto := path, Package := package_value,
           DataOra := st.mtimeFormatted, Dimensione := st.size }

/-- Default worker count of `main` (source lines 487-490):
`min(THREADS_CAP, max(THREADS_MIN, 2 * logical_processors))` with
cap 32 and min 1. -/
def computed_threads (logical_processors : Nat) : Nat :=
  min 32 (max 1 (2 * logical_processors))

/-- Effective worker count of `main` (source lines 492-493):
`args.max_threads if args.max_threads else computed_threads` (Python
truthiness: both `None` and `0` select the computed default), then
clamped with `min(32, max(1, _))`.  `Int` because argparse accepts
negative values. -/
def effective_max_threads (maxThreadsArg : Option Int)
    (logical_processors : Nat) : Nat :=
  let computed : Int := (computed_threads logical_processors : Int)
  let m : Int :=
    match maxThreadsArg with
    | some v => if v = 0 then computed else v
    | none => computed
  (min 32 (max 1 m)).toNat

/-- Specification-side first-non-empty-string selector, used to state
the fallback-chain claims in the spec's own terms. -/
def firstNonEmpty : List String → String
  | [] => ""
  | s :: rest => if s ≠ "" then s else firstNonEmpty rest

/-- Specification-side rendering of the alternate label chain of §4.5
of the spec: ProductName, FileDescription, InternalName,
OriginalFilename with its extension stripped, first non-empty wins. -/
def altChainSpec (b : Block) : String :=
  let t := get_all_available_translations b
  firstNonEmpty
    [get_string_from_version_info b "ProductName" t,
     get_string_from_version_info b "FileDescription" t,
     get_string_from_version_info b "InternalName" t,
     (let o := get_string_from_version_info b "OriginalFilename" t
      if o ≠ "" then splitextRoot o else "")]

/-! ## Helper lemmas -/

/-- Masking with `0xFFFF` is reduction modulo `2 ^ 16`. -/
lemma land_ffff (n : Nat) : n &&& 65535 = n % 65536 := by
  apply Nat.eq_of_testBit_eq
  intro i
  have h1 : (65535 : Nat) = 2 ^ 16 - 1 := by norm_num
  have h2 : (65536 : Nat) = 2 ^ 16 := by norm_num
  rw [h1, h2, Nat.testBit_land, Nat.testBit_two_pow_sub_one,
    Nat.testBit_mod_two_pow, Bool.and_comm]

/-- Shifting right by 16 is division by `2 ^ 16`. -/
lemma shiftRight_16 (n : Nat) : n >>> 16 = n / 65536 := by
  have h := Nat.shiftRight_eq_div_pow n 16
  norm_num at h
  exact h

/-- Rendering formula of `renderVersion` in terms of high/low 16-bit
words expressed with division and remainder. -/
lemma renderVersion_words (ms ls : Nat) :
    renderVersion ms ls =
      toString (ms / 65536 % 65536) ++ "." ++ toString (ms % 65536) ++ "." ++
      toString (ls / 65536 % 65536) ++ "." ++ toString (ls % 65536) := by
  simp only [renderVersion, land_ffff, shiftRight_16]

/-- The version string rendered by either backend is never empty. -/
lemma renderVersion_ne_empty (ms ls : Nat) : renderVersion ms ls ≠ "" := by
  intro h
  have hd := congrArg String.data h
  simp only [renderVersion] at hd
  simp [String.data_append] at hd

/-- Claimed value of a `hexDigit` under the specification-side
inverse. -/
lemma hexCharVal_hexDigit (d : Nat) (h : d < 16) :
    hexCharVal (hexDigit d) = d := by
  interval_cases d <;> decide

/-- Every `hexDigit` is an uppercase hexadecimal digit character. -/
lemma hexDigit_mem (d : Nat) (h : d < 16) :
    hexDigit d ∈ ("0123456789ABCDEF").data := by
  interval_cases d <;> decide

/-- Correctness of the `"{:04X}"` model: four characters, uppercase
hex alphabet, and the base-16 value round-trips. -/
lemma hex4_spec (n : Nat) (h : n < 65536) :
    (hex4 n).length = 4 ∧ hexStrVal (hex4 n) = n ∧
      ∀ c ∈ (hex4 n).data, c ∈ ("0123456789ABCDEF").data := by
  refine ⟨rfl, ?_, ?_⟩
  · have h3 : n / 4096 % 16 < 16 := Nat.mod_lt _ (by norm_num)
    have h2 : n / 256 % 16 < 16 := Nat.mod_lt _ (by norm_num)
    have h1 : n / 16 % 16 < 16 := Nat.mod_lt _ (by norm_num)
    have h0 : n % 16 < 16 := Nat.mod_lt _ (by norm_num)
    simp only [hexStrVal, hex4, List.foldl]
    rw [hexCharVal_hexDigit _ h3, hexCharVal_hexDigit _ h2,
      hexCharVal_hexDigit _ h1, hexCharVal_hexDigit _ h0]
    omega
  · intro c hc
    have hc' : c = hexDigit (n / 4096 % 16) ∨ c = hexDigit (n / 256 % 16) ∨
        c = hexDigit (n / 16 % 16) ∨ c = hexDigit (n % 16) := by
      simpa [hex4] using hc
    rcases hc' with h' | h' | h' | h' <;> rw [h'] <;>
      exact hexDigit_mem _ (Nat.mod_lt _ (by norm_num))

/-- Characterization of the string resolver as "first usable value in
probe order": filter the probe outcomes down to successfully read,
non-empty stripped values and take the head, defaulting to `""`. -/
lemma gsvi_eq_filterMap (b : Block) (key : String) (ts : List String) :
    get_string_from_version_info b key ts =
      (ts.filterMap (fun t =>
        match b.stringQuery t key with
        | .qval v => if pyStrip v ≠ "" then some (pyStrip v) else none
        | _ => none)).headD "" := by
  induction ts with
  | nil => rfl
  | cons t rest ih =>
    simp only [get_string_from_version_info, List.filterMap_cons]
    cases hq : b.stringQuery t key with
    | qval v =>
      by_cases hv : pyStrip v ≠ ""
      · simp [hv]
      · simp [hv, ih]
    | qfail => simpa using ih
    | qlen0 => simpa using ih
    | qreadErr => simpa using ih

/-- When every successful probe of `key` reads an empty or
whitespace-only value, the resolver yields the empty string. -/
lemma gsvi_all_empty (b : Block) (key : String) (ts : List String)
    (h : ∀ t ∈ ts, ∀ v, b.stringQuery t key = .qval v → pyStrip v = "") :
    get_string_from_version_info b key ts = "" := by
  induction ts with
  | nil => rfl
  | cons t rest ih =>
    simp only [get_string_from_version_info]
    cases hq : b.stringQuery t key with
    | qval v =>
      have hv : pyStrip v = "" := h t (by simp) v hq
      simp only [hv]
      simpa using ih (fun t' ht' v' hq' => h t' (by simp [ht']) v' hq')
    | qfail => exact ih (fun t' ht' v' hq' => h t' (by simp [ht']) v' hq')
    | qlen0 => exact ih (fun t' ht' v' hq' => h t' (by simp [ht']) v' hq')
    | qreadErr => exact ih (fun t' ht' v' hq' => h t' (by simp [ht']) v' hq')

/-- A value returned by `get_version_info_local` is never empty. -/
lemma gvil_some_ne_empty (api : Bool) (bo : Option Block) (key v : String)
    (h : get_version_info_local api bo key = some v) : v ≠ "" := by
  cases api with
  | false => simp [get_version_info_local] at h
  | true =>
    cases bo with
    | none => simp [get_version_info_local] at h
    | some b =>
      have hrfl : get_version_info_local true (some b) key =
          (if get_string_from_version_info b key (get_all_available_translations b) ≠ ""
           then some (get_string_from_version_info b key (get_all_available_translations b))
           else none) := rfl
      rw [hrfl] at h
      by_cases hv : get_string_from_version_info b key
          (get_all_available_translations b) ≠ ""
      · rw [if_pos hv] at h
        injection h with h2
        exact h2 ▸ hv
      · rw [if_neg hv] at h
        exact Option.noConfusion h

/-- When the pywin32 backend contributes no label (unavailable, or its
chain resolves empty) and the native chain resolved empty (or no
buffer loaded), the final label is the file's own base name with its
extension stripped. -/
lemma gfvi_label_default (bo : Option Block) (w32 : Win32Api) (name : String)
    (hw : w32.available = true → w32ProductName w32.getString = "")
    (hn : ∀ b, bo = some b → nativeProductName b = "") :
    (get_file_version_info true bo w32 name).1 = splitextRoot name := by
  cases bo with
  | none =>
    cases ha : w32.available with
    | false => simp [get_file_version_info, ha]
    | true =>
      have hp := hw ha
      cases hgf : w32.getFixedVersion with
      | none => simp [get_file_version_info, ha, hp]
      | some p => simp [get_file_version_info, ha, hp]
  | some b =>
    have hb := hn b rfl
    cases ha : w32.available with
    | false => simp [get_file_version_info, ha, hb]
    | true =>
      have hp := hw ha
      cases hgf : w32.getFixedVersion with
      | none => simp [get_file_version_info, ha, hp, hb]
      | some p => simp [get_file_version_info, ha, hp, hb]

/-- When the pywin32 backend contributes no version (unavailable, or
its fixed-info query raises) and the native decoder yielded nothing
(or no buffer loaded), the final version is exactly `"0.0.0.0"`. -/
lemma gfvi_version_default (bo : Option Block) (w32 : Win32Api) (name : String)
    (hw : w32.available = true → w32.getFixedVersion = none)
    (hn : ∀ b, bo = some b → nativeFileVersion b = "") :
    (get_file_version_info true bo w32 name).2 = "0.0.0.0" := by
  cases bo with
  | none =>
    cases ha : w32.available with
    | false => simp [get_file_version_info, ha]
    | true => simp [get_file_version_info, ha, hw ha]
  | some b =>
    have hb := hn b rfl
    cases ha : w32.available with
    | false => simp [get_file_version_info, ha, hb]
    | true => simp [get_file_version_info, ha, hw ha, hb]

/-- When the native version is empty but the pywin32 fixed-info query
succeeds, the final version is the rendered pywin32 pair. -/
lemma gfvi_version_w32 (bo : Option Block) (w32 : Win32Api) (name : String)
    (ms ls : Nat) (ha : w32.available = true)
    (hg : w32.getFixedVersion = some (ms, ls))
    (hn : ∀ b, bo = some b → nativeFileVersion b = "") :
    (get_file_version_info true bo w32 name).2 = renderVersion ms ls := by
  have hr := renderVersion_ne_empty ms ls
  cases bo with
  | none => simp [get_file_version_info, ha, hg, hr]
  | some b => simp [get_file_version_info, ha, hg, hn b rfl, hr]

/-- With no native buffer and the pywin32 backend importable, the
final label is the pywin32 chain result, falling back to the stripped
base name only when that chain resolves empty. -/
lemma gfvi_label_w32 (w32 : Win32Api) (name : String)
    (ha : w32.available = true) :
    (get_file_version_info true none w32 name).1 =
      (if w32ProductName w32.getString = "" then splitextRoot name
       else w32ProductName w32.getString) := by
  by_cases hp : w32ProductName w32.getString = ""
  · cases hgf : w32.getFixedVersion with
    | none => simp [get_file_version_info, ha, hp, hgf]
    | some p => simp [get_file_version_info, ha, hp, hgf]
  · cases hgf : w32.getFixedVersion with
    | none => simp [get_file_version_info, ha, hp, hgf]
    | some p => simp [get_file_version_info, ha, hp, hgf]

/-- The pywin32 probe loop only looks at the oracle on the codepages
of its list (for the probed key). -/
lemma w32Probe_congr (g g' : String → String → Option String) (key : String)
    (l : List String) (acc : String)
    (h : ∀ cp ∈ l, g cp key = g' cp key) :
    w32Probe g key l acc = w32Probe g' key l acc := by
  induction l generalizing acc with
  | nil => rfl
  | cons cp rest ih =>
    simp only [w32Probe]
    rw [← h cp (by simp)]
    cases g cp key with
    | none => exact ih acc (fun c hc => h c (List.mem_cons_of_mem _ hc))
    | some v =>
      dsimp only
      by_cases hv : pyStrip v ≠ ""
      · simp [hv]
      · rw [if_neg hv, if_neg hv]
        exact ih v (fun c hc => h c (List.mem_cons_of_mem _ hc))

/-- The pywin32 label chain depends only on the oracle's answers for
the seven fixed codepages and the three keys ProductName,
FileDescription, InternalName. -/
lemma w32ProductName_congr (g g' : String → String → Option String)
    (h : ∀ cp k, cp ∈ codepages →
      (k = "ProductName" ∨ k = "FileDescription" ∨ k = "InternalName") →
      g cp k = g' cp k) :
    w32ProductName g = w32ProductName g' := by
  have h1 := w32Probe_congr g g' "ProductName" codepages ""
    (fun cp hcp => h cp _ hcp (Or.inl rfl))
  have h2 := w32Probe_congr g g' "FileDescription" codepages ""
    (fun cp hcp => h cp _ hcp (Or.inr (Or.inl rfl)))
  have h3 := w32Probe_congr g g' "InternalName" codepages ""
    (fun cp hcp => h cp _ hcp (Or.inr (Or.inr rfl)))
  simp only [w32ProductName, h1, h2, h3]

/-- The native label chain agrees with the specification-side
first-non-empty rendering of §4.5's alternate chain. -/
lemma nativePN_eq_altChain (b : Block) :
    nativeProductName b = altChainSpec b := by
  simp only [nativeProductName, altChainSpec]
  generalize get_string_from_version_info b "ProductName"
    (get_all_available_translations b) = p1
  generalize get_string_from_version_info b "FileDescription"
    (get_all_available_translations b) = p2
  generalize get_string_from_version_info b "InternalName"
    (get_all_available_translations b) = p3
  generalize get_string_from_version_info b "OriginalFilename"
    (get_all_available_translations b) = p4
  by_cases h1 : p1 = "" <;> by_cases h2 : p2 = "" <;> by_cases h3 : p3 = "" <;>
    by_cases h4 : p4 = "" <;> by_cases h5 : splitextRoot p4 = "" <;>
    simp [firstNonEmpty, h1, h2, h3, h4, h5]

/-! ## Concrete fixtures for witnesses and counterexamples -/

/-- A translation entry reporting 6 bytes — a successful query whose
length is neither zero nor a multiple of 4; the bytes beyond the
reported length (accessible through the buffer pointer) continue with
a plausible second pair. -/
def cexTrans3 : TransEntry :=
  { mem := fun i => List.getD [9, 4, 176, 4, 9, 4, 228, 4] i 0, length := 6 }

/-- Block carrying `cexTrans3` and nothing else. -/
def cexBlock3 : Block :=
  { transQuery := some cexTrans3, rootQuery := none,
    stringQuery := fun _ _ => .qfail }

/-- Block for which every query fails (a file with no usable version
resource content). -/
def wBlockEmpty : Block :=
  { transQuery := none, rootQuery := none, stringQuery := fun _ _ => .qfail }

/-- Unavailable pywin32 backend (the `import win32api` raises). -/
def w32none : Win32Api :=
  { available := false, getFixedVersion := none, getString := fun _ _ => none }

/-- A declared 8-byte translation table: 0409/04B0 then 0410/04E4. -/
def w4trans : TransEntry :=
  { mem := fun i => List.getD [9, 4, 176, 4, 16, 4, 228, 4] i 0, length := 8 }

/-- Block carrying `w4trans`. -/
def w4block : Block :=
  { transQuery := some w4trans, rootQuery := none,
    stringQuery := fun _ _ => .qfail }

/-- A declared single-entry translation table: 0409/04B0. -/
def w9trans : TransEntry :=
  { mem := fun i => List.getD [9, 4, 176, 4] i 0, length := 4 }

/-- Block declaring one variant under which the key `Package` exists
but reads as whitespace only. -/
def w9block : Block :=
  { transQuery := some w9trans, rootQuery := none,
    stringQuery := fun t k =>
      if t = "040904B0" ∧ k = "Package" then .qval "   " else .qfail }

/-- Block where the key `Package` resolves to a real value under the
first static variant. -/
def w1found : Block :=
  { transQuery := none, rootQuery := none,
    stringQuery := fun t k =>
      if t = "040904B0" ∧ k = "Package" then .qval "AcmeSuite" else .qfail }

/-- Available pywin32 backend that knows a ProductName under the
neutral-Unicode codepage only (realizable when the file stores its
strings under a variant absent from its declared table). -/
def cexW32 : Win32Api :=
  { available := true, getFixedVersion := none,
    getString := fun cp k =>
      if cp = "000004B0" ∧ k = "ProductName" then some "Win32Product" else none }

/-- Available pywin32 backend that only answers the fixed-info query. -/
def c6w32 : Win32Api :=
  { available := true, getFixedVersion := some (65538, 196612),
    getString := fun _ _ => none }

/-- Block with a valid 52-byte fixed-info record for version
1.2.3.4. -/
def wb6 : Block :=
  { transQuery := none,
    rootQuery := some { length := 52, versionMS := 65538, versionLS := 196612 },
    stringQuery := fun _ _ => .qfail }

/-- Available pywin32 backend answering FileDescription under the
first fallback codepage. -/
def av32 : Win32Api :=
  { available := true, getFixedVersion := none,
    getString := fun cp k =>
      if cp = "040904B0" ∧ k = "FileDescription" then some "DescApp" else none }

/-- Variant of `av32.getString` that differs only on the
`OriginalFilename` key. -/
def av32g : String → String → Option String := fun cp k =>
  if k = "OriginalFilename" then some "zzz" else av32.getString cp k

/-- Block whose alternate chain finds a (padded) FileDescription under
its declared variant. -/
def w2block : Block :=
  { transQuery := some w9trans, rootQuery := none,
    stringQuery := fun t k =>
      if t = "040904B0" ∧ k = "FileDescription" then .qval " Desc Tool " else .qfail }

/-! ## Claims -/

/-- Claim C3, counterexample: a present variant-table entry whose byte
length is 6 — not zero and not a multiple of 4 — does NOT make the
reader return the static list: the decode loop still runs (`range(0,
6, 4)` has two iterations, the second reading past the reported
length) and produces two codes, so the claimed static substitution
fails at this input. -/
theorem claim_C3_counterexample :
    cexTrans3.length = 6 ∧ (6 % 4 ≠ 0) ∧
    cexBlock3.transQuery = some cexTrans3 ∧
    get_all_available_translations cexBlock3 = ["040904B0", "040904E4"] ∧
    get_all_available_translations cexBlock3 ≠ staticTranslations :=
  ⟨rfl, by decide, rfl, by decide, by decide⟩

/-- Claim C3 (amended: the static list is substituted when the
variant-table query fails, the entry is absent, or its byte length is
LESS THAN 4 — not merely "zero or not a multiple of 4"): in those
cases the Translation Table Reader returns exactly the nine-element
static list 040904B0, 040904E4, 041004B0, 041004E4, 040704B0,
040C04B0, 080904B0, 000004B0, 000004E4, in that order. -/
theorem claim_C3 (b : Block)
    (h : b.transQuery = none ∨ ∃ e, b.transQuery = some e ∧ e.length < 4) :
    get_all_available_translations b = staticTranslations ∧
    staticTranslations =
      ["040904B0", "040904E4", "041004B0", "041004E4", "040704B0",
       "040C04B0", "080904B0", "000004B0", "000004E4"] := by
  refine ⟨?_, rfl⟩
  rcases h with h | ⟨e, he, hlen⟩
  · simp [get_all_available_translations, h]
  · have h4 : ¬ 4 ≤ e.length := by omega
    simp [get_all_available_translations, he, h4]

/-- Witness for C3: a block whose variant-table query fails receives
the static list. -/
theorem claim_C3_witness :
    get_all_available_translations wBlockEmpty = staticTranslations :=
  (claim_C3 wBlockEmpty (Or.inl rfl)).1

/-- Claim C4 (confirmed): a present variant table whose byte length is
a positive multiple of 4 is decoded group by group — each 4-byte group
as a little-endian uint16 language id (`mem i + 256 * mem (i+1)`)
followed by a little-endian uint16 codepage id — rendered language
first as two zero-padded 4-digit uppercase-hex halves, preserving the
table's declaration order; the rendering is faithful: 4 characters per
half, uppercase hex alphabet, and the base-16 value round-trips. -/
theorem claim_C4 (b : Block) (e : TransEntry) (k : Nat)
    (hq : b.transQuery = some e) (hlen : e.length = 4 * k) (hk : 0 < k) :
    get_all_available_translations b =
      (List.range k).map (fun j =>
        hex4 (e.mem (4 * j) + 256 * e.mem (4 * j + 1)) ++
        hex4 (e.mem (4 * j + 2) + 256 * e.mem (4 * j + 3))) ∧
    (∀ n, n < 65536 → (hex4 n).length = 4 ∧ hexStrVal (hex4 n) = n ∧
       ∀ c ∈ (hex4 n).data, c ∈ ("0123456789ABCDEF").data) := by
  refine ⟨?_, fun n hn => hex4_spec n hn⟩
  have hcount : (e.length + 3) / 4 = k := by omega
  have h4 : 4 ≤ e.length := by omega
  have hdec : decodeTranslations e =
      (List.range k).map (fun j =>
        hex4 (e.mem (4 * j) + 256 * e.mem (4 * j + 1)) ++
        hex4 (e.mem (4 * j + 2) + 256 * e.mem (4 * j + 3))) := by
    simp [decodeTranslations, hcount]
  have hne : ¬ (decodeTranslations e).isEmpty := by
    rw [hdec]
    simp [List.isEmpty_iff, List.range_eq_nil]
    omega
  simp [get_all_available_translations, hq, h4, hdec, hne]
  intro h0
  exact absurd h0 (by omega)

/-- Witness for C4: an 8-byte table declaring 0409/04B0 then 0410/04E4
decodes, in order, to exactly those two codes, and the rendering
round-trips on 0x1234. -/
theorem claim_C4_witness :
    get_all_available_translations w4block = ["040904B0", "041004E4"] ∧
    hexStrVal (hex4 4660) = 4660 := by
  have h := claim_C4 w4block w4trans 2 rfl (by decide) (by decide)
  exact ⟨h.1.trans (by decide), (h.2 4660 (by decide)).2.1⟩

/-- Claim C5 (confirmed): the String Field Resolver returns the first
non-empty whitespace-trimmed value obtained by probing the variants in
sequence order — expressed as the head (default `""`) of the probe
outcomes filtered down to successfully read, non-trivially-stripped
values; errored variants (`qfail`, `qreadErr`) and zero-length answers
are skipped rather than fatal, as the filter drops them while the
probing continues. -/
theorem claim_C5 (b : Block) (key : String) (ts : List String) :
    get_string_from_version_info b key ts =
      (ts.filterMap (fun t =>
        match b.stringQuery t key with
        | .qval v => if pyStrip v ≠ "" then some (pyStrip v) else none
        | _ => none)).headD "" :=
  gsvi_eq_filterMap b key ts

/-- Claim C7, counterexample: an explicitly supplied worker count of 0
is NOT clamped to `[1, 32]` — Python's truthiness test `if
args.max_threads` treats 0 like "not supplied", so with 16 logical
processors the pipeline uses the computed default 32, whereas the
claimed clamp of 0 would give 1. -/
theorem claim_C7_counterexample :
    effective_max_threads (some 0) 16 = 32 ∧
    Int.toNat (min 32 (max 1 (0 : Int))) = 1 ∧ (32 : Nat) ≠ 1 := by
  decide

/-- Claim C7 (amended: an explicit worker count of 0 is treated as
absent and yields the computed default; only a NONZERO explicit count
is clamped to `[1, 32]`): with no explicit count the worker count is
`clamp(2 × logical processors, 1, 32)` — in particular 2, 32, 32 for
1, 16, 64 processors — and a nonzero explicit count is used clamped to
`[1, 32]`. -/
theorem claim_C7 (lp : Nat) (v : Int) :
    effective_max_threads none lp = min 32 (max 1 (2 * lp)) ∧
    (v ≠ 0 → effective_max_threads (some v) lp = Int.toNat (min 32 (max 1 v))) ∧
    effective_max_threads (some 0) lp = computed_threads lp ∧
    effective_max_threads none 1 = 2 ∧
    effective_max_threads none 16 = 32 ∧
    effective_max_threads none 64 = 32 := by
  have h1 : 1 ≤ computed_threads lp := by unfold computed_threads; omega
  have h2 : computed_threads lp ≤ 32 := by unfold computed_threads; omega
  refine ⟨?_, fun hv => ?_, ?_, by decide, by decide, by decide⟩
  · show (min 32 (max 1 ((computed_threads lp : Nat) : Int))).toNat =
      min 32 (max 1 (2 * lp))
    have hc : min 32 (max 1 (2 * lp)) = computed_threads lp := rfl
    rw [hc]
    omega
  · simp only [effective_max_threads, if_neg hv]
  · show (min 32 (max 1 (if (0 : Int) = 0 then ((computed_threads lp : Nat) : Int)
        else 0))).toNat = computed_threads lp
    rw [if_pos rfl]
    omega

/-- Witness for C7: an explicit nonzero count of 5 with 3 logical
processors is used as supplied. -/
theorem claim_C7_witness : effective_max_threads (some 5) 3 = 5 := by
  have h := (claim_C7 3 5).2.1 (by decide)
  exact h.trans (by decide)

/-- Claim C8 (confirmed): the Per-File Extraction Task is total in the
embedding — every Python-level fault is absorbed into its `Option`
result — and it yields no record exactly when the stat/timestamp
prefix fails; hence a record is produced only when the stat
succeeded. -/
theorem claim_C8 (stat : Option StatInfo) (api : Bool) (bo : Option Block)
    (w32 : Win32Api) (path name key : String) :
    process_file stat api bo w32 path name key = none ↔ stat = none := by
  cases stat with
  | none => simp [process_file]
  | some st => simp [process_file]

/-- Claim C1 (confirmed): per processed file, when the resolver for
the caller-supplied key returns a value it is non-empty and becomes
the package label standalone, with no `" - "` composition appended;
when the resolver returns nothing the label is exactly the composed
string `"{label} - {version}"` built from the alternate-chain label
and the decoded version — the presence of the requested key switches
the output shape. -/
theorem claim_C1 (st : StatInfo) (api : Bool) (bo : Option Block)
    (w32 : Win32Api) (path name key : String) :
    (∀ v, get_version_info_local api bo key = some v →
       v ≠ "" ∧
       process_file (some st) api bo w32 path name key =
         some ⟨path, v, st.mtimeFormatted, st.size⟩) ∧
    (get_version_info_local api bo key = none →
       process_file (some st) api bo w32 path name key =
         some ⟨path,
           (get_file_version_info api bo w32 name).1 ++ " - " ++
           (get_file_version_info api bo w32 name).2,
           st.mtimeFormatted, st.size⟩) := by
  constructor
  · intro v hv
    refine ⟨gvil_some_ne_empty api bo key v hv, ?_⟩
    simp [process_file, hv]
  · intro hv
    simp [process_file, hv]

/-- Witness for C1: a file whose `Package` key resolves gets the bare
value; one whose key is absent gets the composed fallback label. -/
theorem claim_C1_witness :
    process_file (some ⟨"2024-01-01 00:00:00", 10⟩) true (some w1found)
        w32none "p" "app.exe" "Package" =
      some ⟨"p", "AcmeSuite", "2024-01-01 00:00:00", 10⟩ ∧
    process_file (some ⟨"2024-01-01 00:00:00", 10⟩) true (some wBlockEmpty)
        w32none "p" "app.exe" "Package" =
      some ⟨"p", "app - 0.0.0.0", "2024-01-01 00:00:00", 10⟩ := by
  constructor
  · exact ((claim_C1 ⟨"2024-01-01 00:00:00", 10⟩ true (some w1found) w32none
      "p" "app.exe" "Package").1 "AcmeSuite" (by decide)).2
  · have h := (claim_C1 ⟨"2024-01-01 00:00:00", 10⟩ true (some wBlockEmpty)
      w32none "p" "app.exe" "Package").2 (by decide)
    exact h.trans (by decide)

/-- Claim C9 (confirmed): a requested key that is declared under some
variant but reads as empty or whitespace-only under every variant is
treated exactly like an absent key — the resolver yields the empty
result, `get_version_info_local` returns nothing, and the per-file
output is the composed `"{label} - {version}"` fallback rather than a
preserved empty value. -/
theorem claim_C9 (b : Block) (key : String) (st : StatInfo)
    (w32 : Win32Api) (path name : String)
    (_hdecl : ∃ t ∈ get_all_available_translations b, ∃ v,
       b.stringQuery t key = .qval v)
    (hempty : ∀ t ∈ get_all_available_translations b, ∀ v,
       b.stringQuery t key = .qval v → pyStrip v = "") :
    get_string_from_version_info b key (get_all_available_translations b) = "" ∧
    get_version_info_local true (some b) key = none ∧
    process_file (some st) true (some b) w32 path name key =
      some ⟨path,
        (get_file_version_info true (some b) w32 name).1 ++ " - " ++
        (get_file_version_info true (some b) w32 name).2,
        st.mtimeFormatted, st.size⟩ := by
  have h0 := gsvi_all_empty b key (get_all_available_translations b) hempty
  have h1 : get_version_info_local true (some b) key = none := by
    have hrfl : get_version_info_local true (some b) key =
        (if get_string_from_version_info b key (get_all_available_translations b) ≠ ""
         then some (get_string_from_version_info b key
           (get_all_available_translations b))
         else none) := rfl
    rw [hrfl, h0]
    simp
  refine ⟨h0, h1, ?_⟩
  simp [process_file, h1]

/-- Witness for C9: the key `Package` is declared under the single
declared variant 040904B0 but reads as `"   "`; the record gets the
composed fallback label. -/
theorem claim_C9_witness :
    get_version_info_local true (some w9block) "Package" = none ∧
    process_file (some ⟨"2024-01-01 00:00:00", 10⟩) true (some w9block)
        w32none "p" "app.exe" "Package" =
      some ⟨"p", "app - 0.0.0.0", "2024-01-01 00:00:00", 10⟩ := by
  have hgaat : get_all_available_translations w9block = ["040904B0"] := by decide
  have hdecl : ∃ t ∈ get_all_available_translations w9block, ∃ v,
      w9block.stringQuery t "Package" = .qval v := by
    refine ⟨"040904B0", ?_, "   ", by decide⟩
    rw [hgaat]
    simp
  have hempty : ∀ t ∈ get_all_available_translations w9block, ∀ v,
      w9block.stringQuery t "Package" = .qval v → pyStrip v = "" := by
    intro t ht v hv
    rw [hgaat] at ht
    simp at ht
    subst ht
    have hq : w9block.stringQuery "040904B0" "Package" = .qval "   " := by decide
    have h2 : StrQuery.qval "   " = StrQuery.qval v := hq.symm.trans hv
    injection h2 with h3
    rw [← h3]
    decide
  have h := claim_C9 w9block "Package" ⟨"2024-01-01 00:00:00", 10⟩ w32none
    "p" "app.exe" hdecl hempty
  exact ⟨h.2.1, h.2.2.trans (by decide)⟩

/-- Claim C2, counterexample: a file whose four-step native chain
yields empty everywhere does NOT always get its own stripped file name
as label — when the pywin32 backend is importable and finds a
ProductName (here under neutral-Unicode 000004B0, a codepage a real
file can use for its strings while not declaring it in its table), the
label is that backend's value instead. -/
theorem claim_C2_counterexample :
    nativeProductName wBlockEmpty = "" ∧
    (get_file_version_info true (some wBlockEmpty) cexW32 "app.exe").1 =
      "Win32Product" ∧
    splitextRoot "app.exe" = "app" ∧
    ("Win32Product" : String) ≠ "app" :=
  ⟨by decide, by decide, by decide, by decide⟩

/-- Claim C2 (amended: the basename fallback additionally requires
that the pywin32 backend is unavailable or itself yields no name): for
a file whose requested key resolves empty, the alternate label is the
first non-empty of ProductName, FileDescription, InternalName,
OriginalFilename-with-extension-stripped, probed in that order; if
every step yields empty and the pywin32 backend contributes no name,
the label is the input file's own base name with its extension
stripped — in particular for a file with no version resource at all
(whose pywin32 queries likewise fail). -/
theorem claim_C2 (b : Block) (w32 : Win32Api) (name : String) :
    nativeProductName b = altChainSpec b ∧
    ((w32.available = true → w32ProductName w32.getString = "") →
      (nativeProductName b = "" →
        (get_file_version_info true (some b) w32 name).1 = splitextRoot name) ∧
      (get_file_version_info true none w32 name).1 = splitextRoot name) := by
  refine ⟨nativePN_eq_altChain b, fun hw => ⟨fun hn => ?_, ?_⟩⟩
  · exact gfvi_label_default (some b) w32 name hw
      (fun b' hb' => by cases hb'; exact hn)
  · exact gfvi_label_default none w32 name hw (fun b' hb' => by cases hb')

/-- Witness for C2: a block resolving only FileDescription gets that
(trimmed) as chain label; an all-empty block with unavailable pywin32
falls back to the stripped file name, both with and without a loaded
buffer. -/
theorem claim_C2_witness :
    nativeProductName w2block = altChainSpec w2block ∧
    nativeProductName w2block = "Desc Tool" ∧
    (get_file_version_info true (some wBlockEmpty) w32none "app.exe").1 = "app" ∧
    (get_file_version_info true none w32none "app.exe").1 = "app" := by
  have h1 := (claim_C2 w2block w32none "app.exe").1
  have h2 := (claim_C2 wBlockEmpty w32none "app.exe").2
    (fun hav => absurd hav (by decide))
  refine ⟨h1, by decide, ?_, ?_⟩
  · exact (h2.1 (by decide)).trans (by decide)
  · exact h2.2.trans (by decide)

/-- Claim C6, counterexample: a file whose native fixed-info query
fails does NOT always report `"0.0.0.0"` — when the pywin32 backend is
importable and its fixed-info query succeeds, the version is decoded
from that backend instead. -/
theorem claim_C6_counterexample :
    nativeFileVersion wBlockEmpty = "" ∧
    (get_file_version_info true (some wBlockEmpty) c6w32 "a.exe").2 =
      "1.2.3.4" ∧
    ("1.2.3.4" : String) ≠ "0.0.0.0" :=
  ⟨rfl, by decide, by decide⟩

/-- Claim C6 (amended: the `"0.0.0.0"` default additionally requires
that the pywin32 backend is unavailable or its fixed-info query also
fails; a pywin32-supplied pair is decoded with the same word
formulas): the native decoder interprets the fixed-info record only
when the returned byte length is at least
`sizeof(VS_FIXEDFILEINFO)` = 52, rendering
`"{major}.{minor}.{build}.{revision}"` with major/minor the high/low
16-bit words of `versionMS` and build/revision those of `versionLS`;
undersized lengths and failed queries decode nothing, and with an
inert pywin32 backend the final version is then exactly `"0.0.0.0"`. -/
theorem claim_C6 (b : Block) (w32 : Win32Api) (name : String) :
    (∀ e, b.rootQuery = some e → sizeofVSFixedFileInfo ≤ e.length →
       nativeFileVersion b =
         toString (e.versionMS / 65536 % 65536) ++ "." ++
         toString (e.versionMS % 65536) ++ "." ++
         toString (e.versionLS / 65536 % 65536) ++ "." ++
         toString (e.versionLS % 65536)) ∧
    (∀ e, b.rootQuery = some e → e.length < sizeofVSFixedFileInfo →
       nativeFileVersion b = "") ∧
    (b.rootQuery = none → nativeFileVersion b = "") ∧
    ((w32.available = true → w32.getFixedVersion = none) →
       nativeFileVersion b = "" →
       (get_file_version_info true (some b) w32 name).2 = "0.0.0.0") ∧
    (∀ ms ls, w32.available = true → w32.getFixedVersion = some (ms, ls) →
       nativeFileVersion b = "" →
       (get_file_version_info true (some b) w32 name).2 = renderVersion ms ls) ∧
    (∀ ms ls, renderVersion ms ls =
       toString (ms / 65536 % 65536) ++ "." ++ toString (ms % 65536) ++ "." ++
       toString (ls / 65536 % 65536) ++ "." ++ toString (ls % 65536)) := by
  refine ⟨?_, ?_, ?_, ?_, ?_, renderVersion_words⟩
  · intro e he hlen
    simp [nativeFileVersion, he, hlen, renderVersion_words]
  · intro e he hlen
    have h : ¬ sizeofVSFixedFileInfo ≤ e.length := by omega
    simp [nativeFileVersion, he, h]
  · intro h
    simp [nativeFileVersion, h]
  · exact fun hw hn => gfvi_version_default (some b) w32 name hw
      (fun b' hb' => by cases hb'; exact hn)
  · exact fun ms ls ha hg hn => gfvi_version_w32 (some b) w32 name ms ls ha hg
      (fun b' hb' => by cases hb'; exact hn)

/-- Witness for C6: a 52-byte record MS=0x00010002, LS=0x00030004
renders as 1.2.3.4; a block whose root query fails with inert pywin32
ends at 0.0.0.0. -/
theorem claim_C6_witness :
    nativeFileVersion wb6 = "1.2.3.4" ∧
    (get_file_version_info true (some wBlockEmpty) w32none "x.exe").2 =
      "0.0.0.0" := by
  have h := claim_C6 wb6 w32none "x.exe"
  have h' := claim_C6 wBlockEmpty w32none "x.exe"
  constructor
  · exact (h.1 ⟨52, 65538, 196612⟩ rfl (by decide)).trans (by decide)
  · exact h'.2.2.2.1 (fun hav => absurd hav (by decide)) rfl

/-- Claim C10 (confirmed): when the native extraction leaves the label
empty (here: no loadable buffer) and `win32api` imports, the secondary
backend is consulted; its label chain probes exactly the fixed
seven-entry codepage list 040904B0, 040904E4, 041004B0, 041004E4,
000004B0, 040704B0, 040C04B0 — not the file's declared translation
table (the chain takes no block input and its result depends only on
the backend's answers over that list) and differing from the
nine-entry static list — and it stops after InternalName: answers for
any other key, OriginalFilename included, cannot change its result. -/
theorem claim_C10 (w32 : Win32Api) (name : String) :
    codepages = ["040904B0", "040904E4", "041004B0", "041004E4", "000004B0",
      "040704B0", "040C04B0"] ∧
    codepages ≠ staticTranslations ∧
    (w32.available = true →
       (get_file_version_info true none w32 name).1 =
         (if w32ProductName w32.getString = "" then splitextRoot name
          else w32ProductName w32.getString)) ∧
    (∀ g g' : String → String → Option String,
       (∀ cp k, cp ∈ codepages →
          (k = "ProductName" ∨ k = "FileDescription" ∨ k = "InternalName") →
          g cp k = g' cp k) →
       w32ProductName g = w32ProductName g') :=
  ⟨rfl, by decide, fun ha => gfvi_label_w32 w32 name ha,
   fun g g' h => w32ProductName_congr g g' h⟩

/-- Witness for C10: an importable backend answering FileDescription
under 040904B0 labels a resource-less file "DescApp", and changing the
backend's OriginalFilename answers does not affect the chain. -/
theorem claim_C10_witness :
    (get_file_version_info true none av32 "tool.exe").1 = "DescApp" ∧
    w32ProductName av32.getString = w32ProductName av32g := by
  constructor
  · have h := (claim_C10 av32 "tool.exe").2.2.1 rfl
    exact h.trans (by decide)
  · refine (claim_C10 av32 "tool.exe").2.2.2 av32.getString av32g ?_
    intro cp k hcp hk
    have hne : k ≠ "OriginalFilename" := by
      rcases hk with h | h | h <;> rw [h] <;> decide
    simp [av32g, hne]
